import Mathlib

/-!
Verification of the INVOICEFLOW column-mapping and invoice-reconstruction
engine (`src/backend/csv_parser_v2.py`), as a shallow embedding in Lean 4.

Modelling conventions:
* Cell values are `Option String` (`none` models a null/NaN cell); numeric
  values are exact rationals `ℚ` (Python floats modelled exactly).
* Calls into external libraries are abstracted as function parameters:
  the `fuzzywuzzy` similarity scorers (`fuzz.ratio`, `fuzz.partial_ratio`,
  `fuzz.token_sort_ratio`) become three `String → String → Nat` parameters,
  and the `strptime` date-format cascade plus the pandas date fallback of
  `parse_date` becomes one `String → Option D` parameter over an abstract
  date type `D`.  `datetime.now()` becomes an explicit parameter `now : D`
  with a formatter `sf : D → String` standing for `strftime`.
  Everything else is translated directly from the Python source.
-/

/-- The canonical invoice fields, in the registration order of
`ColumnMappings.get_all_mappings` (`csv_parser_v2.py` lines 238-261). -/
inductive CanonicalField where
  | invoice_number
  | invoice_date
  | due_date
  | client_name
  | client_email
  | client_address
  | description
  | quantity
  | rate
  | amount
  | subtotal
  | tax_rate
  | tax_amount
  | total
  | terms
  | notes
  | currency
  | status
  | po_number
deriving DecidableEq, Repr

/-- Synonym list `ColumnMappings.INVOICE_NUMBER`. -/
def INVOICE_NUMBER : List String :=
  ["invoice #", "invoice number", "invoice no", "invoicenumber", "invoice_number",
   "ref number", "refnumber", "ref #", "ref", "transaction number", "trans #",
   "num", "number", "doc number", "docnumber", "document number",
   "invoice id", "invoiceid", "reference", "invoice reference",
   "invoice code", "invoice#", "id",
   "invoice_id", "invoicecode",
   "invoice identifier", "bill number",
   "inv #", "inv no", "inv number", "inv_no", "inv_num"]

/-- Synonym list `ColumnMappings.INVOICE_DATE`. -/
def INVOICE_DATE : List String :=
  ["date", "invoice date", "invoicedate", "invoice_date", "trans date",
   "transaction date", "txn date", "txndate", "billing date",
   "date created", "created date", "creation date", "issue date",
   "sent date", "issued", "issued date", "issued on",
   "inv date", "inv_date", "bill date", "billed date", "billed on"]

/-- Synonym list `ColumnMappings.DUE_DATE`. -/
def DUE_DATE : List String :=
  ["due date", "duedate", "due_date", "payment due", "paymentdue",
   "payment due date", "terms date", "termsdate", "due by",
   "payment date", "paymentdate", "pay by date", "expiry date",
   "due on", "payment deadline", "term date"]

/-- Synonym list `ColumnMappings.CLIENT_NAME`. -/
def CLIENT_NAME : List String :=
  ["customer", "customer name", "customername", "customer_name",
   "client", "client name", "clientname", "client_name",
   "bill to", "bill_to", "billto", "bill to name",
   "sold to", "sold_to", "soldto",
   "contact", "contact name", "customer/contact",
   "company", "company name", "companyname", "organization",
   "business name", "business", "account", "account name",
   "customer:company", "customer company", "name"]

/-- Synonym list `ColumnMappings.CLIENT_EMAIL`. -/
def CLIENT_EMAIL : List String :=
  ["email", "e-mail", "email address", "emailaddress", "email_address",
   "customer email", "customeremail", "customer_email",
   "client email", "clientemail", "client_email",
   "contact email", "contactemail", "contact_email",
   "bill to email", "billing email", "invoice email",
   "primary email", "email 1", "email1", "customer:email"]

/-- Synonym list `ColumnMappings.CLIENT_ADDRESS`. -/
def CLIENT_ADDRESS : List String :=
  ["address", "billing address", "billingaddress", "billing_address",
   "bill to address", "customer address", "customeraddress",
   "street address", "street", "ship to", "shipto",
   "address line 1", "addressline1", "address1", "addr1",
   "address line 2", "addressline2", "address2", "addr2",
   "bill addr line 1", "billing addr 1",
   "city", "billing city", "customer city", "town",
   "state", "state/province", "province", "region",
   "billing state", "customer state",
   "zip", "zip code", "zipcode", "postal code", "postalcode",
   "billing zip", "customer zip"]

/-- Synonym list `ColumnMappings.DESCRIPTION`. -/
def DESCRIPTION : List String :=
  ["description", "item description", "service description",
   "product/service", "product_service", "product or service",
   "item", "item name", "itemname", "item_name",
   "service", "service name", "servicename",
   "description & qty", "description/qty", "line description",
   "task", "task name", "activity", "service item",
   "product", "product name", "productname", "product description",
   "service type", "memo", "line item", "lineitem", "line_item",
   "details", "item details", "notes", "description/notes",
   "sku", "sku description", "class"]

/-- Synonym list `ColumnMappings.QUANTITY`. -/
def QUANTITY : List String :=
  ["qty", "quantity", "units", "hours", "amount",
   "qty sold", "qtysold", "quantity sold", "units sold",
   "billable hours", "billable qty", "item qty",
   "num", "count", "volume", "billing quantity"]

/-- Synonym list `ColumnMappings.RATE`. -/
def RATE : List String :=
  ["rate", "price", "unit price", "unitprice", "unit_price",
   "sales price", "salesprice", "sales_price",
   "unit cost", "unitcost", "unit_cost", "cost per unit",
   "hourly rate", "hourlyrate", "hourly_rate", "billing rate",
   "price each", "priceeach", "price_each", "each",
   "cost", "rate/price", "rate price", "charge", "fee"]

/-- Synonym list `ColumnMappings.AMOUNT`. -/
def AMOUNT : List String :=
  ["amount", "line amount", "lineamount", "line_amount",
   "line total", "linetotal", "line_total",
   "extended amount", "extendedamount", "extended_amount",
   "line amount tax", "line amount no tax",
   "total", "subtotal", "sum", "price", "charge",
   "item total", "net amount", "line price"]

/-- Synonym list `ColumnMappings.SUBTOTAL`. -/
def SUBTOTAL : List String :=
  ["subtotal", "sub total", "sub-total", "sub_total",
   "net amount", "netamount", "net_amount",
   "total before tax", "amount before tax",
   "taxable amount", "taxableamount", "pre-tax total",
   "item total", "items total", "line items total"]

/-- Synonym list `ColumnMappings.TAX_RATE`. -/
def TAX_RATE : List String :=
  ["tax rate", "taxrate", "tax_rate", "tax %", "tax percent",
   "tax percentage", "sales tax rate", "salestaxrate",
   "gst rate", "vat rate", "tax code rate",
   "rate of tax", "tax rate %", "rate %"]

/-- Synonym list `ColumnMappings.TAX_AMOUNT`. -/
def TAX_AMOUNT : List String :=
  ["tax", "tax amount", "taxamount", "tax_amount",
   "sales tax", "salestax", "sales_tax",
   "gst", "gst amount", "vat", "vat amount",
   "tax total", "taxtotal", "total tax",
   "tax charged", "tax applied", "tax value"]

/-- Synonym list `ColumnMappings.TOTAL`. -/
def TOTAL : List String :=
  ["total", "grand total", "grandtotal", "grand_total",
   "invoice total", "invoicetotal", "invoice_total",
   "amount due", "amountdue", "amount_due",
   "balance", "balance due", "balancedue",
   "total amount", "totalamount", "final total",
   "amount owing", "total with tax", "final amount"]

/-- Synonym list `ColumnMappings.TERMS`. -/
def TERMS : List String :=
  ["terms", "payment terms", "paymentterms", "payment_terms",
   "term", "due terms", "invoice terms", "billing terms",
   "net terms", "due net", "payment method"]

/-- Synonym list `ColumnMappings.NOTES`. -/
def NOTES : List String :=
  ["notes", "memo", "message", "customer message", "customermessage",
   "comments", "description", "remarks", "note to customer",
   "invoice message", "invoice note", "additional info",
   "special instructions", "instructions"]

/-- Synonym list `ColumnMappings.CURRENCY`. -/
def CURRENCY : List String :=
  ["currency", "currency code", "currencycode", "curr",
   "transaction currency", "billing currency",
   "home currency", "foreign currency"]

/-- Synonym list `ColumnMappings.STATUS`. -/
def STATUS : List String :=
  ["status", "invoice status", "payment status", "paymentstatus",
   "paid status", "state", "condition", "paid/unpaid",
   "open/closed", "sent/unsent"]

/-- Synonym list `ColumnMappings.PO_NUMBER`. -/
def PO_NUMBER : List String :=
  ["po #", "po number", "ponumber", "po_number",
   "purchase order", "purchase order #", "p.o. number",
   "po", "purchase order number", "client po"]

/-- The synonym vocabulary of each canonical field
(`ColumnMappings.get_all_mappings`). -/
def vocab : CanonicalField → List String
  | .invoice_number => INVOICE_NUMBER
  | .invoice_date => INVOICE_DATE
  | .due_date => DUE_DATE
  | .client_name => CLIENT_NAME
  | .client_email => CLIENT_EMAIL
  | .client_address => CLIENT_ADDRESS
  | .description => DESCRIPTION
  | .quantity => QUANTITY
  | .rate => RATE
  | .amount => AMOUNT
  | .subtotal => SUBTOTAL
  | .tax_rate => TAX_RATE
  | .tax_amount => TAX_AMOUNT
  | .total => TOTAL
  | .terms => TERMS
  | .notes => NOTES
  | .currency => CURRENCY
  | .status => STATUS
  | .po_number => PO_NUMBER

/-- Iteration order of `self.mappings.items()` in `detect_column_mapping`
(insertion order of `get_all_mappings`). -/
def fieldOrder : List CanonicalField :=
  [.invoice_number, .invoice_date, .due_date, .client_name, .client_email,
   .client_address, .description, .quantity, .rate, .amount, .subtotal,
   .tax_rate, .tax_amount, .total, .terms, .notes, .currency, .status,
   .po_number]

/-- Python `str.lower()`, character-wise (all inputs considered here are
ASCII). -/
def py_lower (s : String) : String :=
  String.mk (s.toList.map Char.toLower)

/-- Python `str.strip()`: remove leading and trailing whitespace. -/
def py_strip (s : String) : String :=
  String.mk
    (((s.toList.dropWhile Char.isWhitespace).reverse.dropWhile
      Char.isWhitespace).reverse)

/-- Python `str.replace(c, '')` for a one-character pattern: delete every
occurrence. -/
def remove_char (c : Char) (s : String) : String :=
  String.mk (s.toList.filter (fun x => x ≠ c))

/-- Python `str.replace(c, r)` for one-character pattern and replacement:
substitute every occurrence. -/
def swap_char (c r : Char) (s : String) : String :=
  String.mk (s.toList.map (fun x => if x = c then r else x))

/-- Model of `FuzzyMatcher.levenshtein_match`: best vocabulary entry by `fuzz.ratio`
score, strict improvement, kept only at or above `threshold`.
`ratio` abstracts the external `fuzz.ratio`. -/
def levenshtein_match (ratio : String → String → Nat) (col : String)
    (targets : List String) (threshold : Nat) : Option String :=
  let colLower := py_strip (py_lower col)
  let best := targets.foldl
    (fun (acc : Option String × Nat) t =>
      let score := ratio colLower (py_lower t)
      if score > acc.2 ∧ score ≥ threshold then (some t, score) else acc)
    (none, 0)
  if best.2 ≥ threshold then best.1 else none

/-- Model of `FuzzyMatcher.partial_match` (substring similarity via the external
`fuzz.partial_ratio`, abstracted as `sr`). -/
def substr_match (sr : String → String → Nat) (col : String)
    (targets : List String) (threshold : Nat) : Option String :=
  let colLower := py_strip (py_lower col)
  let best := targets.foldl
    (fun (acc : Option String × Nat) t =>
      let score := sr colLower (py_lower t)
      if score > acc.2 ∧ score ≥ threshold then (some t, score) else acc)
    (none, 0)
  if best.2 ≥ threshold then best.1 else none

/-- Model of `FuzzyMatcher.token_sort_match` (the external `fuzz.token_sort_ratio`,
abstracted as `tsr`). -/
def token_sort_match (tsr : String → String → Nat) (col : String)
    (targets : List String) (threshold : Nat) : Option String :=
  let colLower := py_strip (py_lower col)
  let best := targets.foldl
    (fun (acc : Option String × Nat) t =>
      let score := tsr colLower (py_lower t)
      if score > acc.2 ∧ score ≥ threshold then (some t, score) else acc)
    (none, 0)
  if best.2 ≥ threshold then best.1 else none

/-- Python `max(strategies, key=lambda x: x[1])`: the first pair with the
maximal score (later entries win only on strictly greater score). -/
def maxBySecond : List (Option String × Nat) → Option String × Nat
  | [] => (none, 0)
  | [x] => x
  | x :: y :: xs =>
    let m := maxBySecond (y :: xs)
    if m.2 > x.2 then m else x

/-- Model of `FuzzyMatcher.best_match`: exact case-insensitive equality wins with
confidence 100; otherwise the best of the three fuzzy strategies, kept only
at confidence ≥ 70, else `(none, 0)`. -/
def best_match (ratio sr tsr : String → String → Nat) (col : String)
    (targets : List String) : Option String × Nat :=
  let colLower := py_strip (py_lower col)
  match targets.find? (fun t => colLower = py_lower t) with
  | some t => (some t, 100)
  | none =>
    let levM := levenshtein_match ratio col targets 70
    let levS := match levM with
      | some t => ratio colLower (py_lower t)
      | none => 0
    let parM := substr_match sr col targets 80
    let parS := match parM with
      | some t => sr colLower (py_lower t)
      | none => 0
    let tokM := token_sort_match tsr col targets 75
    let tokS := match tokM with
      | some t => tsr colLower (py_lower t)
      | none => 0
    let best := maxBySecond [(levM, levS), (parM, parS), (tokM, tokS)]
    if best.2 ≥ 70 then best else (none, 0)

/-- A detected assignment: `(field, source column, confidence)` triples in
field registration order — `detect_column_mapping`'s returned dict. -/
abbrev Mapping := List (CanonicalField × String × Nat)

/-- The inner loop of `detect_column_mapping` over `df_columns`: keep the
not-yet-used column whose `best_match` score strictly improves on the best
so far.  (In the source, `match_result` is a tuple and hence always truthy,
so the guard reduces to the score comparison.) -/
def pickBestCol (bm : String → Option String × Nat) (used : List String) :
    List String → Option String × Nat → Option String × Nat
  | [], acc => acc
  | c :: cs, acc =>
    if c ∈ used then pickBestCol bm used cs acc
    else if (bm c).2 > acc.2 then pickBestCol bm used cs (some c, (bm c).2)
    else pickBestCol bm used cs acc

/-- The outer loop of `detect_column_mapping` over the canonical fields,
threading the `used_columns` set.  A winning column is accepted when it is
truthy (non-empty) and its score is ≥ 70, and is then marked used. -/
def detect_go (ratio sr tsr : String → String → Nat) (cols : List String) :
    List CanonicalField → List String → Mapping
  | [], _ => []
  | f :: fs, used =>
    let best := pickBestCol (fun c => best_match ratio sr tsr c (vocab f))
      used cols (none, 0)
    match best.1 with
    | some c =>
      if best.2 ≥ 70 ∧ c ≠ "" then
        (f, c, best.2) :: detect_go ratio sr tsr cols fs (c :: used)
      else detect_go ratio sr tsr cols fs used
    | none => detect_go ratio sr tsr cols fs used

/-- Model of `CSVParserV2.detect_column_mapping` (lines 363-392). -/
def detect_column_mapping (ratio sr tsr : String → String → Nat)
    (cols : List String) : Mapping :=
  detect_go ratio sr tsr cols fieldOrder []

/-- A table row: association of column header to cell, where `none` models a
null/NaN cell.  `rowGet` is pandas `row.get(col)` (absent column → null). -/
abbrev Row := List (String × Option String)

/-- Pandas `row.get(col)` on a row. -/
def rowGet (r : Row) (c : String) : Option String :=
  match r.find? (fun p => p.1 = c) with
  | some p => p.2
  | none => none

/-- Lookup `mapping[field]['csv_column']`, or `none` when `field not in mapping`. -/
def lookupCol (m : Mapping) (f : CanonicalField) : Option String :=
  match m.find? (fun e => e.1 = f) with
  | some e => some e.2.1
  | none => none

/-- Model of `CSVParserV2.parse_date` (lines 394-430) on a cell.  Null and
blank-after-strip cells give `none`; otherwise the strptime format cascade
and the pandas fallback — both external library calls — are abstracted as
`tf`.  (The `isinstance(date_value, datetime)` branch does not arise for
string cells.) -/
def parse_date {D : Type} (tf : String → Option D) (v : Option String) :
    Option D :=
  match v with
  | none => none
  | some s =>
    let ds := py_strip s
    if ds = "" then none else tf ds

/-- The characters removed by `re.sub(r'[$£€¥₹,\s]', '', cleaned)`
(line 444).  Note the class includes the comma. -/
def strip_symbols (s : String) : String :=
  String.mk (s.toList.filter
    (fun c => ¬ (c ∈ ['$', '£', '€', '¥', '₹', ','] ∨ c.isWhitespace)))

/-- Parenthesis-negative notation (lines 447-448):
`(1234.56)` becomes `-1234.56`. -/
def drop_parens (s : String) : String :=
  let l := s.toList
  if l.head? = some '(' ∧ l.getLast? = some ')' then
    String.mk ('-' :: (l.drop 1).dropLast)
  else s

/-- Thousands/decimal separator disambiguation (lines 450-466).  `rindex c₁ >
rindex c₂` is rendered as comparing positions in the reversed character
list.  (After `strip_symbols` the string contains no comma, so both comma
branches are unreachable; they are embedded faithfully nonetheless.) -/
def comma_fixup (s : String) : String :=
  let l := s.toList
  if l.contains ',' ∧ l.contains '.' then
    if l.reverse.indexOf ',' < l.reverse.indexOf '.' then
      swap_char ',' '.' (remove_char '.' s)
    else remove_char ',' s
  else if l.contains ',' then
    if (l.reverse.takeWhile (fun c => c ≠ ',')).length = 2 then
      swap_char ',' '.' s
    else remove_char ',' s
  else s

/-- Value of a digit run, most significant first. -/
def digits_val (l : List Char) : ℕ :=
  l.foldl (fun n c => n * 10 + (c.toNat - 48)) 0

/-- Core of Python `float(...)` on an unsigned literal: digits with an
optional single decimal point, at least one digit in total.  (Exponent
notation and `inf`/`nan` literals are not modelled; no input in this
development uses them.) -/
def parse_float_core (l : List Char) : Option ℚ :=
  let intPart := l.takeWhile Char.isDigit
  let rest := l.dropWhile Char.isDigit
  match rest with
  | [] => if intPart = [] then none else some (digits_val intPart)
  | c :: frac =>
    if c = '.' then
      if frac.all Char.isDigit ∧ (intPart ≠ [] ∨ frac ≠ []) then
        some ((digits_val intPart : ℚ) +
          (digits_val frac : ℚ) / ((10 : ℚ) ^ frac.length))
      else none
    else none

/-- Python `float(cleaned)`, returning `none` where Python raises
`ValueError`. -/
def parse_float (s : String) : Option ℚ :=
  match s.toList with
  | '-' :: rest => (parse_float_core rest).map Neg.neg
  | '+' :: rest => parse_float_core rest
  | l => parse_float_core l

/-- The whole string-normalization pipeline of `parse_number`
(strip, currency/whitespace/comma removal, parentheses, separator fixup). -/
def clean_number_str (s : String) : String :=
  comma_fixup (drop_parens (strip_symbols (py_strip s)))

/-- Model of `CSVParserV2.parse_number` (lines 432-472) on a cell: null gives `0`,
and an unparseable remainder gives `0` instead of failing.  (The
`isinstance(num_value, (int, float))` branch does not arise for string
cells.) -/
def parse_number (v : Option String) : ℚ :=
  match v with
  | none => 0
  | some s =>
    let cleaned := clean_number_str s
    if cleaned = "" then 0 else (parse_float cleaned).getD 0

/-- Model of `CSVParserV2._get_field` (lines 592-603) with default `None`: `none`
when the field is unassigned, the cell is null, or the raw cell is the
empty string; otherwise the stripped cell text. -/
def get_field (row : Row) (m : Mapping) (f : CanonicalField) : Option String :=
  match lookupCol m f with
  | none => none
  | some col =>
    match rowGet row col with
    | none => none
    | some v => if v = "" then none else some (py_strip v)

/-- Model of `CSVParserV2._get_date_field` (lines 605-614) with default `None`. -/
def get_date_field {D : Type} (tf : String → Option D) (row : Row)
    (m : Mapping) (f : CanonicalField) : Option D :=
  match lookupCol m f with
  | none => none
  | some col => parse_date tf (rowGet row col)

/-- Model of `CSVParserV2._get_number_field` (lines 616-624): the per-field default
is used only when the field is unassigned; an assigned field always goes
through `parse_number` (whose own fallback is `0`). -/
def get_number_field (row : Row) (m : Mapping) (f : CanonicalField)
    (dflt : ℚ) : ℚ :=
  match lookupCol m f with
  | none => dflt
  | some col => parse_number (rowGet row col)

/-- Rendering of a cell inside the composite-key f-string
`f"{row[invoice_col]}_{row[date_col]}"`: a null date cell renders as
`"nan"`. -/
def cellStr : Option String → String
  | none => "nan"
  | some s => s

/-- Insert a key into a sorted key list (pandas `groupby` sorts group keys
ascending). -/
def chars_lt : List Char → List Char → Bool
  | [], [] => false
  | [], _ :: _ => true
  | _ :: _, [] => false
  | a :: as, b :: bs => if a < b then true else if b < a then false else chars_lt as bs

def insert_sorted (s : String) : List String → List String
  | [] => [s]
  | t :: ts =>
    if chars_lt s.toList t.toList then s :: t :: ts else t :: insert_sorted s ts

/-- Sort the group keys ascending, as pandas `groupby` does. -/
def sort_keys (l : List String) : List String :=
  l.foldr insert_sorted []

/-- The grouping key of a row in `split_invoices`: the composite
`f"{inv}_{date}"` when an invoice-date column is mapped (null invoice
number → no key), else the raw invoice-number cell. -/
def group_key (m : Mapping) (invCol : String) (r : Row) : Option String :=
  match lookupCol m .invoice_date with
  | some dateCol =>
    match rowGet r invCol with
    | none => none
    | some v => some (v ++ "_" ++ cellStr (rowGet r dateCol))
  | none => rowGet r invCol

/-- Model of `CSVParserV2.split_invoices` (lines 474-503): one group per distinct
non-null grouping key whose string form is not blank after stripping;
groups keep row order; without an invoice-number column the whole table is
a single group. -/
def split_invoices (rows : List Row) (m : Mapping) : List (List Row) :=
  match lookupCol m .invoice_number with
  | none => [rows]
  | some invCol =>
    let keys := sort_keys (rows.filterMap (group_key m invCol)).eraseDups
    keys.filterMap fun k =>
      if py_strip k = "" then none
      else some (rows.filter (fun r => group_key m invCol r = some k))

/-- A normalized invoice line item. -/
structure LineItem where
  description : String
  quantity : ℚ
  rate : ℚ
  amount : ℚ
deriving DecidableEq, Repr

/-- The invoice record assembled by `parse_invoice_group` (the dict built
at lines 573-590), over an abstract date type `D`. -/
structure Invoice (D : Type) where
  invoice_number : String
  invoice_date : D
  due_date : Option D
  client_name : String
  client_email : Option String
  client_address : Option String
  line_items : List LineItem
  subtotal : ℚ
  tax_rate : ℚ
  tax_amount : ℚ
  total : ℚ
  terms : Option String
  notes : Option String
  po_number : Option String
  currency : String
  status : String
deriving DecidableEq

/-- The tax reconciliation of `parse_invoice_group` (lines 565-569),
returning `(tax_rate, tax_amount)`. -/
def reconcile_tax (subtotal tax_amount tax_rate : ℚ) : ℚ × ℚ :=
  if 0 < tax_amount ∧ tax_rate = 0 ∧ 0 < subtotal then
    (tax_amount / subtotal * 100, tax_amount)
  else if 0 < tax_rate ∧ tax_amount = 0 then
    (tax_rate, subtotal * (tax_rate / 100))
  else (tax_rate, tax_amount)

/-- The line-item extraction of `parse_invoice_group` (lines 533-552):
rows without a non-empty normalized description are skipped; a zero/missing
amount with positive quantity and rate is derived as quantity × rate. -/
def extract_line_items (m : Mapping) (rows : List Row) : List LineItem :=
  rows.filterMap fun row =>
    match get_field row m .description with
    | none => none
    | some d =>
      if d = "" then none
      else
        let quantity := get_number_field row m .quantity 1
        let rate := get_number_field row m .rate 0
        let amount := get_number_field row m .amount 0
        let amount :=
          if amount = 0 ∧ 0 < quantity ∧ 0 < rate then quantity * rate
          else amount
        some ⟨d, quantity, rate, amount⟩

/-- Model of `CSVParserV2.parse_invoice_group` (lines 505-590).  `tf` abstracts the
date parser internals, `now` is `datetime.now()` and `sf` its `strftime`
formatting. -/
def parse_invoice_group {D : Type} (tf : String → Option D) (now : D)
    (sf : D → String) (m : Mapping) (rows : List Row) : Option (Invoice D) :=
  match rows with
  | [] => none
  | first :: _ =>
    let line_items := extract_line_items m rows
    if line_items = [] then none
    else
      let subtotal := (line_items.map LineItem.amount).sum
      let ta := get_number_field first m .tax_amount 0
      let tr := get_number_field first m .tax_rate 0
      let rec_tax := reconcile_tax subtotal ta tr
      some
        { invoice_number :=
            (get_field first m .invoice_number).getD ("INV-" ++ sf now)
          invoice_date := (get_date_field tf first m .invoice_date).getD now
          due_date := get_date_field tf first m .due_date
          client_name := (get_field first m .client_name).getD "Unknown Client"
          client_email := get_field first m .client_email
          client_address := get_field first m .client_address
          line_items := line_items
          subtotal := subtotal
          tax_rate := rec_tax.1
          tax_amount := rec_tax.2
          total := subtotal + rec_tax.2
          terms := get_field first m .terms
          notes := get_field first m .notes
          po_number := get_field first m .po_number
          currency := (get_field first m .currency).getD "USD"
          status := (get_field first m .status).getD "draft" }

/-- The metadata dict of `parse_csv` (lines 679-686); the error branches
return the empty dict, modelled as `Metadata.empty`. -/
structure Metadata where
  total_rows : ℕ
  total_columns : ℕ
  mapped_fields : List CanonicalField
  confidence_scores : List (CanonicalField × Nat)
  invoices_found : ℕ
  avg_confidence : ℚ
deriving DecidableEq

/-- The empty metadata dict `{}`. -/
def Metadata.empty : Metadata := ⟨0, 0, [], [], 0, 0⟩

/-- The `(invoices, error_message, metadata)` triple returned by
`parse_csv`. -/
structure ParseOutcome (D : Type) where
  invoices : List (Invoice D)
  error : Option String
  metadata : Metadata
deriving DecidableEq

/-- Model of `CSVParserV2.parse_csv` (lines 626-692) from the point where the
in-memory table exists: file decoding is the caller's concern (spec §1,
§6), so the input is the header list and row list.  `df.empty` holds when
either axis is empty. -/
def parse_csv {D : Type} (ratio sr tsr : String → String → Nat)
    (tf : String → Option D) (now : D) (sf : D → String)
    (headers : List String) (rows : List Row) : ParseOutcome D :=
  if headers = [] ∨ rows = [] then
    ⟨[], some "File is empty", Metadata.empty⟩
  else
    let mapping := detect_column_mapping ratio sr tsr headers
    if mapping = [] then
      ⟨[],
       some "Could not detect any recognizable columns. Please check your CSV format.",
       Metadata.empty⟩
    else
      let invoices := (split_invoices rows mapping).filterMap
        (parse_invoice_group tf now sf mapping)
      if invoices.isEmpty then
        ⟨[], some "No valid invoices found in file", Metadata.empty⟩
      else
        ⟨invoices, none,
         { total_rows := rows.length
           total_columns := headers.length
           mapped_fields := mapping.map (·.1)
           confidence_scores := mapping.map (fun e => (e.1, e.2.2))
           invoices_found := invoices.length
           avg_confidence :=
             (mapping.map (fun e => (e.2.2 : ℚ))).sum / (mapping.length : ℚ) }⟩

/-! ### Concrete fixtures for witnesses and counterexamples -/

/-- All-zero similarity scorers: only the exact-match strategy of
`best_match` can fire. -/
def zeroRatio : String → String → Nat := fun _ _ => 0

/-- A date parser that recognizes nothing (every strptime format fails and
the pandas fallback fails), instantiated at `D := String`. -/
def tfNone : String → Option String := fun _ => none

/-- Mapping: description and amount columns assigned. -/
def exM1 : Mapping := [(.description, "Desc", 100), (.amount, "Amount", 100)]

/-- One row: description `Item`, amount `100`. -/
def exR1 : Row := [("Desc", some "Item"), ("Amount", some "100")]

/-- The invoice assembled from `exM1`/`exR1` at processing time `"T"`. -/
def exInv1 : Invoice String :=
  { invoice_number := "INV-T", invoice_date := "T", due_date := none,
    client_name := "Unknown Client", client_email := none,
    client_address := none, line_items := [⟨"Item", 1, 0, 100⟩],
    subtotal := 100, tax_rate := 0, tax_amount := 0, total := 100,
    terms := none, notes := none, po_number := none, currency := "USD",
    status := "draft" }

/-- Scenario C mapping: description, amount and tax-amount columns, no
tax-rate column. -/
def exM3 : Mapping :=
  [(.description, "Desc", 100), (.amount, "Amount", 100),
   (.tax_amount, "Tax", 100)]

/-- Scenario C row: amount `100.00`, tax amount `8.00`. -/
def exR3 : Row :=
  [("Desc", some "Item"), ("Amount", some "100.00"), ("Tax", some "8.00")]

/-! ### C1 — totals invariant of the assembler -/

/-- C1: every `InvoiceRecord` produced by `parse_invoice_group` satisfies
`total = subtotal + tax_amount` and `subtotal = Σ line_items.amount`
(exactly, floats modelled as rationals). -/
theorem C1_totals_invariant {D : Type} (tf : String → Option D) (now : D)
    (sf : D → String) (m : Mapping) (rows : List Row) (inv : Invoice D)
    (h : parse_invoice_group tf now sf m rows = some inv) :
    inv.total = inv.subtotal + inv.tax_amount ∧
      inv.subtotal = (inv.line_items.map LineItem.amount).sum := by
  match rows with
  | [] => simp [parse_invoice_group] at h
  | first :: rest =>
    simp only [parse_invoice_group] at h
    split at h
    · exact absurd h (by simp)
    · cases h
      exact ⟨rfl, rfl⟩

/-- Witness for C1 at the concrete group `exM1`/`exR1`. -/
theorem C1_totals_invariant_witness :
    exInv1.total = exInv1.subtotal + exInv1.tax_amount ∧
      exInv1.subtotal = (exInv1.line_items.map LineItem.amount).sum :=
  C1_totals_invariant tfNone "T" id exM1 [exR1] exInv1
    (of_decide_eq_true (by with_unfolding_all rfl))

/-! ### C3 — tax reconciliation -/

/-- C3: the reconciliation derives `tax_rate = tax_amount / subtotal * 100`
when only the amount is known (and subtotal is positive), derives
`tax_amount = subtotal * tax_rate / 100` when only the rate is known, and
leaves both untouched when both are non-zero; concretely, first-row
tax_amount `8.00` with subtotal `100.00` and no tax-rate column yields
tax_rate `8`. -/
theorem C3_tax_reconciliation :
    (∀ st ta tr : ℚ,
      (0 < ta → tr = 0 → 0 < st →
        reconcile_tax st ta tr = (ta / st * 100, ta)) ∧
      (0 < tr → ta = 0 →
        reconcile_tax st ta tr = (tr, st * (tr / 100))) ∧
      (ta ≠ 0 → tr ≠ 0 → reconcile_tax st ta tr = (tr, ta))) ∧
    (parse_invoice_group tfNone "T" id exM3 [exR3]).map Invoice.tax_rate =
      some 8 := by
  constructor
  · intro st ta tr
    refine ⟨fun h1 h2 h3 => ?_, fun h1 h2 => ?_, fun h1 h2 => ?_⟩
    · rw [reconcile_tax, if_pos ⟨h1, h2, h3⟩]
    · rw [reconcile_tax, if_neg (fun hc => absurd hc.1 (by simp [h2])),
        if_pos ⟨h1, h2⟩]
    · rw [reconcile_tax, if_neg (fun hc => h2 hc.2.1),
        if_neg (fun hc => h1 hc.2)]
  · exact of_decide_eq_true (by with_unfolding_all rfl)

/-- Witness for C3: the rate-derivation branch at subtotal 100, tax amount
8, no tax rate. -/
theorem C3_tax_reconciliation_witness :
    reconcile_tax 100 8 0 = (8 / 100 * 100, 8) :=
  (C3_tax_reconciliation.1 100 8 0).1 (by norm_num) rfl (by norm_num)

/-! ### C10 — comma handling in parse_number -/

/-- The symbol-stripping regex of `parse_number` (line 444) removes every
comma, so the thousands/decimal disambiguation that follows it never sees
one: its comma branches are dead code. -/
theorem strip_symbols_no_comma (s : String) :
    ',' ∉ (strip_symbols s).toList := by
  intro hmem
  simp [strip_symbols] at hmem

/-- C10 (code bug): the source's own comments (lines 458-465) say a lone
comma followed by exactly two digits is a decimal separator, so
`"1234,56"` should give `1234.56`; but the substitution at line 444 has
already deleted every comma, so the code returns `123456`.  (`"1,234"`
still gives `1234`, for the wrong reason.) -/
theorem C10_comma_stripped :
    parse_number (some "1234,56") = 123456 ∧
      parse_number (some "1,234") = 1234 := by
  have e1 : digits_val ("123456".toList) = 123456 := by decide
  have e2 : digits_val ("1234".toList) = 1234 := by decide
  have h1 : parse_number (some "1234,56") =
      ((digits_val ("123456".toList) : ℕ) : ℚ) := by
    with_unfolding_all rfl
  have h2 : parse_number (some "1,234") =
      ((digits_val ("1234".toList) : ℕ) : ℚ) := by
    with_unfolding_all rfl
  rw [h1, h2, e1, e2]
  norm_num

/-! ### C4 — no failure escapes parse_csv -/

/-- The shape required of every engine outcome: either a non-empty invoice
list with no error, or an empty invoice list with a non-empty diagnostic. -/
def outcome_ok {D : Type} (o : ParseOutcome D) : Prop :=
  (o.error = none ∧ o.invoices ≠ []) ∨
    (o.invoices = [] ∧ ∃ msg, o.error = some msg ∧ msg ≠ "")

/-- C4: the engine entry point is a total function of the input table, and
every failure (empty table, zero fields mapped, zero invoices assembled)
returns an empty invoice list together with a non-empty diagnostic
message, never a fault. -/
theorem C4_engine_total_outcome {D : Type}
    (ratio sr tsr : String → String → Nat) (tf : String → Option D)
    (now : D) (sf : D → String) (headers : List String) (rows : List Row) :
    outcome_ok (parse_csv ratio sr tsr tf now sf headers rows) := by
  rw [outcome_ok, parse_csv]
  split
  · exact Or.inr ⟨rfl, "File is empty", rfl, by decide⟩
  · dsimp only
    split
    · exact Or.inr ⟨rfl,
        "Could not detect any recognizable columns. Please check your CSV format.",
        rfl, by decide⟩
    · split
      · exact Or.inr ⟨rfl, "No valid invoices found in file", rfl, by decide⟩
      · next hne =>
        exact Or.inl ⟨rfl, by simpa [List.isEmpty_iff] using hne⟩

/-! ### C2 — one-to-one column assignment -/

/-- The inner column scan never picks a used column (given the running best
does not hold one). -/
theorem pickBestCol_not_used (bm : String → Option String × Nat)
    (used : List String) :
    ∀ (cs : List String) (acc : Option String × Nat),
      (∀ c, acc.1 = some c → c ∉ used) →
      ∀ c, (pickBestCol bm used cs acc).1 = some c → c ∉ used := by
  intro cs
  induction cs with
  | nil => exact fun acc hacc c hc => hacc c hc
  | cons x xs ih =>
    intro acc hacc c hc
    rw [pickBestCol] at hc
    by_cases hx : x ∈ used
    · rw [if_pos hx] at hc
      exact ih acc hacc c hc
    · rw [if_neg hx] at hc
      by_cases hs : (bm x).2 > acc.2
      · rw [if_pos hs] at hc
        refine ih (some x, (bm x).2) (fun c' hc' => ?_) c hc
        cases hc'
        exact hx
      · rw [if_neg hs] at hc
        exact ih acc hacc c hc

/-- Every column recorded by the field loop of `detect_column_mapping` is
outside the running used set. -/
theorem detect_go_not_used (ratio sr tsr : String → String → Nat)
    (cols : List String) :
    ∀ (fs : List CanonicalField) (used : List String)
      (f : CanonicalField) (c : String) (s : Nat),
      (f, c, s) ∈ detect_go ratio sr tsr cols fs used → c ∉ used := by
  intro fs
  induction fs with
  | nil =>
    intro used f c s h
    simp [detect_go] at h
  | cons g gs ih =>
    intro used f c s h
    simp only [detect_go] at h
    split at h
    next c0 heq =>
      split at h
      · rcases List.mem_cons.1 h with heqe | htail
        · have hc : c = c0 := congrArg (fun e => e.2.1) heqe
          subst hc
          exact pickBestCol_not_used _ used cols (none, 0) (by simp) c heq
        · intro hc
          exact ih (c0 :: used) f c s htail (List.mem_cons_of_mem _ hc)
      · exact ih used f c s h
    next heq => exact ih used f c s h

/-- The columns recorded by the field loop are pairwise distinct. -/
theorem detect_go_nodup (ratio sr tsr : String → String → Nat)
    (cols : List String) :
    ∀ (fs : List CanonicalField) (used : List String),
      ((detect_go ratio sr tsr cols fs used).map
        (fun e => e.2.1)).Nodup := by
  intro fs
  induction fs with
  | nil => intro used; simp [detect_go]
  | cons g gs ih =>
    intro used
    simp only [detect_go]
    split
    next c0 heq =>
      split
      · simp only [List.map_cons]
        refine List.nodup_cons.2 ⟨fun hc0 => ?_, ih (c0 :: used)⟩
        rcases List.mem_map.1 hc0 with ⟨⟨f', c', s'⟩, hmem, hc'⟩
        have hc2 : c' = c0 := hc'
        rw [hc2] at hmem
        exact detect_go_not_used ratio sr tsr cols gs (c0 :: used) f' c0 s'
          hmem (List.mem_cons_self c0 used)
      · exact ih used
    next heq => exact ih used

/-- In a triple list whose columns are pairwise distinct, two entries with
the same column have the same field. -/
theorem nodup_cols_inj {l : List (CanonicalField × String × Nat)}
    (h : (l.map (fun e => e.2.1)).Nodup) :
    ∀ {f₁ c s₁ f₂ s₂}, (f₁, c, s₁) ∈ l → (f₂, c, s₂) ∈ l → f₁ = f₂ := by
  induction l with
  | nil => intro f₁ c s₁ f₂ s₂ h₁ _; exact absurd h₁ (by simp)
  | cons e es ih =>
    intro f₁ c s₁ f₂ s₂ h₁ h₂
    obtain ⟨he, hes⟩ := List.nodup_cons.1 h
    rcases List.mem_cons.1 h₁ with heq₁ | ht₁ <;>
      rcases List.mem_cons.1 h₂ with heq₂ | ht₂
    · rw [← heq₂] at heq₁
      exact congrArg Prod.fst heq₁
    · exact absurd (List.mem_map.2 ⟨(f₂, c, s₂), ht₂, by rw [← heq₁]⟩) he
    · exact absurd (List.mem_map.2 ⟨(f₁, c, s₁), ht₁, by rw [← heq₂]⟩) he
    · exact ih hes ht₁ ht₂

/-- C2: `detect_column_mapping` never assigns one source column to two
different canonical fields, whatever the similarity scorers and header
list. -/
theorem C2_no_column_reuse (ratio sr tsr : String → String → Nat)
    (cols : List String) (f₁ f₂ : CanonicalField) (c : String)
    (s₁ s₂ : Nat)
    (h₁ : (f₁, c, s₁) ∈ detect_column_mapping ratio sr tsr cols)
    (h₂ : (f₂, c, s₂) ∈ detect_column_mapping ratio sr tsr cols) :
    f₁ = f₂ :=
  nodup_cols_inj (detect_go_nodup ratio sr tsr cols fieldOrder []) h₁ h₂

/-- Witness for C2: with all-zero scorers and the single header
`Description`, the mapping assigns it (to `description`, exactly once). -/
theorem C2_no_column_reuse_witness :
    CanonicalField.description = CanonicalField.description :=
  C2_no_column_reuse zeroRatio zeroRatio zeroRatio ["Description"]
    .description .description "Description" 100 100
    (by set_option maxRecDepth 5000 in decide)
    (by set_option maxRecDepth 5000 in decide)

/-! ### C5 — determinism -/

/-- Whether a group yields an invoice does not depend on the processing
time: `now` only feeds default field values. -/
theorem parse_invoice_group_isSome {D : Type} (tf : String → Option D)
    (now₁ now₂ : D) (sf : D → String) (m : Mapping) (rows : List Row) :
    (parse_invoice_group tf now₁ sf m rows).isSome =
      (parse_invoice_group tf now₂ sf m rows).isSome := by
  cases rows with
  | nil => rfl
  | cons first rest =>
    simp only [parse_invoice_group]
    by_cases h : extract_line_items m (first :: rest) = [] <;> simp [h]

/-- Two filters with pointwise agreeing success keep the same number of
elements. -/
theorem filterMap_length_congr {α β : Type} (g₁ g₂ : α → Option β)
    (h : ∀ a, (g₁ a).isSome = (g₂ a).isSome) :
    ∀ l : List α, (l.filterMap g₁).length = (l.filterMap g₂).length := by
  intro l
  induction l with
  | nil => rfl
  | cons a as ih =>
    rw [List.filterMap_cons, List.filterMap_cons]
    have ha := h a
    cases hg1 : g₁ a <;> cases hg2 : g₂ a <;>
      rw [hg1, hg2] at ha <;> simp_all

/-- Lists of equal length are simultaneously empty. -/
theorem isEmpty_eq_of_length_eq {α β : Type} {l₁ : List α} {l₂ : List β}
    (h : l₁.length = l₂.length) : l₁.isEmpty = l₂.isEmpty := by
  cases l₁ <;> cases l₂ <;> simp_all

/-- C5 (amended): the engine is deterministic once the processing timestamp
is fixed — two runs with the same `now` give identical `ParseOutcome`; and
even across different timestamps the error, the metadata and the number of
invoices coincide (only time-derived defaults inside invoices can
differ). -/
theorem C5_determinism_fixed_time {D : Type}
    (ratio sr tsr : String → String → Nat) (tf : String → Option D)
    (now₁ now₂ : D) (sf : D → String) (headers : List String)
    (rows : List Row) :
    (parse_csv ratio sr tsr tf now₁ sf headers rows).error =
        (parse_csv ratio sr tsr tf now₂ sf headers rows).error ∧
      (parse_csv ratio sr tsr tf now₁ sf headers rows).metadata =
        (parse_csv ratio sr tsr tf now₂ sf headers rows).metadata ∧
      (parse_csv ratio sr tsr tf now₁ sf headers rows).invoices.length =
        (parse_csv ratio sr tsr tf now₂ sf headers rows).invoices.length ∧
      (now₁ = now₂ →
        parse_csv ratio sr tsr tf now₁ sf headers rows =
          parse_csv ratio sr tsr tf now₂ sf headers rows) := by
  by_cases h0 : headers = [] ∨ rows = []
  · simp only [parse_csv, if_pos h0]
    exact ⟨trivial, trivial, trivial, fun h => by subst h; trivial⟩
  · by_cases h1 : detect_column_mapping ratio sr tsr headers = []
    · simp only [parse_csv, if_neg h0, if_pos h1]
      exact ⟨trivial, trivial, trivial, fun h => by subst h; trivial⟩
    · have hl : (List.filterMap
          (parse_invoice_group tf now₁ sf
            (detect_column_mapping ratio sr tsr headers))
          (split_invoices rows
            (detect_column_mapping ratio sr tsr headers))).length =
        (List.filterMap
          (parse_invoice_group tf now₂ sf
            (detect_column_mapping ratio sr tsr headers))
          (split_invoices rows
            (detect_column_mapping ratio sr tsr headers))).length :=
        filterMap_length_congr _ _
          (fun g => parse_invoice_group_isSome tf now₁ now₂ sf _ g) _
      by_cases h2 : (List.filterMap
          (parse_invoice_group tf now₁ sf
            (detect_column_mapping ratio sr tsr headers))
          (split_invoices rows
            (detect_column_mapping ratio sr tsr headers))).isEmpty = true
      · have h2' : (List.filterMap
            (parse_invoice_group tf now₂ sf
              (detect_column_mapping ratio sr tsr headers))
            (split_invoices rows
              (detect_column_mapping ratio sr tsr headers))).isEmpty =
            true := by
          rw [← isEmpty_eq_of_length_eq hl]
          exact h2
        simp only [parse_csv, if_neg h0, if_neg h1, if_pos h2, if_pos h2']
        exact ⟨trivial, trivial, trivial, fun h => by subst h; trivial⟩
      · have h2' : ¬ (List.filterMap
            (parse_invoice_group tf now₂ sf
              (detect_column_mapping ratio sr tsr headers))
            (split_invoices rows
              (detect_column_mapping ratio sr tsr headers))).isEmpty =
            true := by
          rw [← isEmpty_eq_of_length_eq hl]
          exact h2
        simp only [parse_csv, if_neg h0, if_neg h1, if_neg h2, if_neg h2']
        refine ⟨trivial, ?_, ?_, fun h => by subst h; trivial⟩
        · rw [hl]
        · exact hl

/-- Headers whose exact-match assignment sends `Description` to the
description field and `Amount` to the quantity field (the greedy pass
reaches `quantity` before `amount`). -/
def exHeaders : List String := ["Description", "Amount"]

/-- One data row for `exHeaders`. -/
def exRowA : Row := [("Description", some "Item"), ("Amount", some "100")]

/-- Witness for C5: at one fixed timestamp the two runs coincide. -/
theorem C5_determinism_fixed_time_witness :
    parse_csv zeroRatio zeroRatio zeroRatio tfNone "T1" id exHeaders
        [exRowA] =
      parse_csv zeroRatio zeroRatio zeroRatio tfNone "T1" id exHeaders
        [exRowA] :=
  (C5_determinism_fixed_time zeroRatio zeroRatio zeroRatio tfNone "T1" "T1"
    id exHeaders [exRowA]).2.2.2 rfl

set_option maxRecDepth 10000 in
/-- C5 counterexample: on a table with no invoice-number column the
assembler generates `INV-<timestamp>`, so two runs at different processing
times return different `ParseOutcome`s — the claim as stated fails. -/
theorem C5_counterexample :
    parse_csv zeroRatio zeroRatio zeroRatio tfNone "T1" id exHeaders
        [exRowA] ≠
      parse_csv zeroRatio zeroRatio zeroRatio tfNone "T2" id exHeaders
        [exRowA] := by
  intro h
  have h1 : (parse_csv zeroRatio zeroRatio zeroRatio tfNone "T1" id
      exHeaders [exRowA]).invoices.map Invoice.invoice_number =
      ["INV-T1"] := by
    with_unfolding_all rfl
  have h2 : (parse_csv zeroRatio zeroRatio zeroRatio tfNone "T2" id
      exHeaders [exRowA]).invoices.map Invoice.invoice_number =
      ["INV-T2"] := by
    with_unfolding_all rfl
  rw [h, h2] at h1
  exact absurd h1 (by decide)

/-! ### C6 — defaults for missing header fields -/

/-- A header-level input is absent for a row when the field has no assigned
column or the assigned column holds a null cell. -/
def absent_input (row : Row) (m : Mapping) (f : CanonicalField) : Prop :=
  lookupCol m f = none ∨
    ∃ col, lookupCol m f = some col ∧ rowGet row col = none

/-- Helper: `_get_field` yields no value on an absent input. -/
theorem get_field_absent (row : Row) (m : Mapping) (f : CanonicalField)
    (h : absent_input row m f) : get_field row m f = none := by
  rcases h with h | ⟨col, h1, h2⟩
  · simp [get_field, h]
  · simp [get_field, h1, h2]

/-- Helper: `_get_date_field` yields no value on an absent input. -/
theorem get_date_field_absent {D : Type} (tf : String → Option D)
    (row : Row) (m : Mapping) (f : CanonicalField)
    (h : absent_input row m f) : get_date_field tf row m f = none := by
  rcases h with h | ⟨col, h1, h2⟩
  · simp [get_date_field, h]
  · simp [get_date_field, h1, h2, parse_date]

/-- C6 (amended): when a header-level field is unassigned or its cell is
null, the assembler substitutes: a generated `INV-<timestamp>` invoice
number, the processing time as invoice date, the placeholder client name;
due date, client email, client address, terms, notes and PO number stay
absent; but currency defaults to `USD` and status to `draft` (not absent,
as the claim stated). -/
theorem C6_header_defaults {D : Type} (tf : String → Option D) (now : D)
    (sf : D → String) (m : Mapping) (first : Row) (rest : List Row)
    (inv : Invoice D)
    (h : parse_invoice_group tf now sf m (first :: rest) = some inv) :
    (absent_input first m .invoice_number →
      inv.invoice_number = "INV-" ++ sf now) ∧
    (absent_input first m .invoice_date → inv.invoice_date = now) ∧
    (absent_input first m .client_name →
      inv.client_name = "Unknown Client") ∧
    (absent_input first m .due_date → inv.due_date = none) ∧
    (absent_input first m .client_email → inv.client_email = none) ∧
    (absent_input first m .client_address → inv.client_address = none) ∧
    (absent_input first m .terms → inv.terms = none) ∧
    (absent_input first m .notes → inv.notes = none) ∧
    (absent_input first m .po_number → inv.po_number = none) ∧
    (absent_input first m .currency → inv.currency = "USD") ∧
    (absent_input first m .status → inv.status = "draft") := by
  simp only [parse_invoice_group] at h
  split at h
  · exact absurd h (by simp)
  · cases h
    refine ⟨fun ha => ?_, fun ha => ?_, fun ha => ?_, fun ha => ?_,
      fun ha => ?_, fun ha => ?_, fun ha => ?_, fun ha => ?_, fun ha => ?_,
      fun ha => ?_, fun ha => ?_⟩
    · show (get_field first m .invoice_number).getD _ = _
      rw [get_field_absent first m _ ha]
      rfl
    · show (get_date_field tf first m .invoice_date).getD _ = _
      rw [get_date_field_absent tf first m _ ha]
      rfl
    · show (get_field first m .client_name).getD _ = _
      rw [get_field_absent first m _ ha]
      rfl
    · exact get_date_field_absent tf first m _ ha
    · exact get_field_absent first m _ ha
    · exact get_field_absent first m _ ha
    · exact get_field_absent first m _ ha
    · exact get_field_absent first m _ ha
    · exact get_field_absent first m _ ha
    · show (get_field first m .currency).getD _ = _
      rw [get_field_absent first m _ ha]
      rfl
    · show (get_field first m .status).getD _ = _
      rw [get_field_absent first m _ ha]
      rfl

/-- Mapping assigning only a description column. -/
def exM6 : Mapping := [(.description, "Desc", 100)]

/-- A row with only a description cell. -/
def exR6 : Row := [("Desc", some "Item")]

/-- The invoice assembled from `exM6`/`exR6` at processing time `"T"`:
every header-level field defaulted. -/
def exInv6 : Invoice String :=
  { invoice_number := "INV-T", invoice_date := "T", due_date := none,
    client_name := "Unknown Client", client_email := none,
    client_address := none, line_items := [⟨"Item", 1, 0, 0⟩],
    subtotal := 0, tax_rate := 0, tax_amount := 0, total := 0,
    terms := none, notes := none, po_number := none, currency := "USD",
    status := "draft" }

/-- Witness for C6 at the concrete group `exM6`/`exR6`. -/
theorem C6_header_defaults_witness :
    exInv6.invoice_number = "INV-" ++ id "T" ∧ exInv6.currency = "USD" ∧
      exInv6.status = "draft" := by
  have h := C6_header_defaults tfNone "T" id exM6 exR6 [] exInv6
    (of_decide_eq_true (by with_unfolding_all rfl))
  exact ⟨h.1 (Or.inl rfl), h.2.2.2.2.2.2.2.2.2.1 (Or.inl rfl),
    h.2.2.2.2.2.2.2.2.2.2 (Or.inl rfl)⟩

/-- C6 counterexample: with no currency or status column assigned, the
produced invoice carries currency `USD` and status `draft` — these fields
are not absent, contradicting the claim's list of absent fields. -/
theorem C6_counterexample :
    (parse_invoice_group tfNone "T" id exM6 [exR6]).map
        (fun i => (i.currency, i.status)) = some ("USD", "draft") ∧
      lookupCol exM6 .currency = none ∧ lookupCol exM6 .status = none :=
  ⟨of_decide_eq_true (by with_unfolding_all rfl), rfl, rfl⟩

/-! ### C7 — quantity/rate defaults -/

/-- C7 (amended): the per-field defaults 1.0 (quantity) and 0.0 (rate)
apply only when the column is unassigned; an assigned column always goes
through `parse_number`, whose fallback for an unparseable or null cell is
`0` — so an unparseable rate still gets `0`, but an unparseable quantity
gets `0`, not the claimed `1`. -/
theorem C7_number_defaults (row : Row) (m : Mapping) :
    (lookupCol m .quantity = none →
      get_number_field row m .quantity 1 = 1) ∧
    (lookupCol m .rate = none → get_number_field row m .rate 0 = 0) ∧
    (∀ col, lookupCol m .quantity = some col →
      get_number_field row m .quantity 1 = parse_number (rowGet row col)) ∧
    (∀ col, lookupCol m .rate = some col →
      get_number_field row m .rate 0 = parse_number (rowGet row col)) ∧
    (∀ s, parse_float (clean_number_str s) = none →
      parse_number (some s) = 0) ∧
    parse_number none = 0 := by
  refine ⟨fun h => ?_, fun h => ?_, fun col h => ?_, fun col h => ?_,
    fun s h => ?_, rfl⟩
  · simp [get_number_field, h]
  · simp [get_number_field, h]
  · simp [get_number_field, h]
  · simp [get_number_field, h]
  · rw [parse_number]
    split
    · rfl
    · rw [h]
      rfl

/-- Mapping assigning description and quantity columns. -/
def exM7 : Mapping := [(.description, "Desc", 100), (.quantity, "Qty", 100)]

/-- A row whose quantity cell is unparseable text. -/
def exR7 : Row := [("Desc", some "Item"), ("Qty", some "abc")]

/-- Witness for C7: with quantity unassigned the default 1 applies, and an
unparseable cell makes `parse_number` return 0. -/
theorem C7_number_defaults_witness :
    get_number_field exR7 exM6 .quantity 1 = 1 ∧
      parse_number (some "abc") = 0 :=
  ⟨(C7_number_defaults exR7 exM6).1 rfl,
   (C7_number_defaults exR7 exM6).2.2.2.2.1 "abc"
     (of_decide_eq_true (by with_unfolding_all rfl))⟩

/-- C7 counterexample: a line item whose quantity column is assigned but
whose cell reads `abc` gets quantity `0`, not the claimed default `1`. -/
theorem C7_counterexample :
    (parse_invoice_group tfNone "T" id exM7 [exR7]).map
        (fun i => i.line_items.map LineItem.quantity) = some [0] ∧
      (0 : ℚ) ≠ 1 :=
  ⟨of_decide_eq_true (by with_unfolding_all rfl), by norm_num⟩

/-! ### C8 — line-item shape -/

/-- C8 (amended): every produced line item has a non-empty description, and
quantity, rate and amount are non-negative provided the parsed source
values are non-negative — nothing clamps a negative cell (for example
`(5)` parses to `-5` and flows through). -/
theorem C8_line_item_shape {D : Type} (tf : String → Option D) (now : D)
    (sf : D → String) (m : Mapping) (rows : List Row) (inv : Invoice D)
    (h : parse_invoice_group tf now sf m rows = some inv)
    (li : LineItem) (hli : li ∈ inv.line_items) :
    li.description ≠ "" ∧
      ((∀ r ∈ rows, 0 ≤ get_number_field r m .quantity 1 ∧
          0 ≤ get_number_field r m .rate 0 ∧
          0 ≤ get_number_field r m .amount 0) →
        0 ≤ li.quantity ∧ 0 ≤ li.rate ∧ 0 ≤ li.amount) := by
  match rows with
  | [] => simp [parse_invoice_group] at h
  | first :: rest =>
    simp only [parse_invoice_group] at h
    split at h
    · exact absurd h (by simp)
    · cases h
      replace hli : li ∈ extract_line_items m (first :: rest) := hli
      rw [extract_line_items] at hli
      rcases List.mem_filterMap.1 hli with ⟨r, hr, hfr⟩
      split at hfr
      · exact absurd hfr (by simp)
      · next d hd =>
        split at hfr
        · exact absurd hfr (by simp)
        · next hne =>
          cases hfr
          refine ⟨hne, fun hnn => ?_⟩
          obtain ⟨hq, hrt, ha⟩ := hnn r hr
          refine ⟨hq, hrt, ?_⟩
          show 0 ≤ (if _ ∧ _ ∧ _ then _ else _ : ℚ)
          split
          · next hcond =>
            exact mul_nonneg (le_of_lt hcond.2.1) (le_of_lt hcond.2.2)
          · exact ha

/-- Witness for C8 at the concrete group `exM1`/`exR1`. -/
theorem C8_line_item_shape_witness :
    (⟨"Item", 1, 0, 100⟩ : LineItem).description ≠ "" :=
  (C8_line_item_shape tfNone "T" id exM1 [exR1] exInv1
    (of_decide_eq_true (by with_unfolding_all rfl)) ⟨"Item", 1, 0, 100⟩
    (of_decide_eq_true (by with_unfolding_all rfl))).1

/-- Mapping assigning description and amount columns. -/
def exM8 : Mapping := [(.description, "Desc", 100), (.amount, "Amt", 100)]

/-- A row whose amount cell is a parenthesized (negative) value. -/
def exR8 : Row := [("Desc", some "Item"), ("Amt", some "(5)")]

/-- C8 counterexample: the amount cell `(5)` parses to `-5` and the
produced line item has a negative amount, contradicting `amount ≥ 0`. -/
theorem C8_counterexample :
    (parse_invoice_group tfNone "T" id exM8 [exR8]).map
        (fun i => i.line_items.map LineItem.amount) = some [-5] ∧
      ¬ (0 : ℚ) ≤ -5 :=
  ⟨of_decide_eq_true (by with_unfolding_all rfl), by norm_num⟩

/-! ### C9 — exclusion of blank invoice-number rows -/

/-- C9 (amended): in the plain-key path every row kept in a group has a
non-null invoice-number cell that is not blank after stripping; in the
composite path only rows with a *null* invoice-number cell are excluded —
a blank or whitespace cell is concatenated with the date into a non-blank
composite key and survives. -/
theorem C9_group_exclusion (m : Mapping) (rows : List Row) (invCol : String)
    (hinv : lookupCol m .invoice_number = some invCol) :
    (lookupCol m .invoice_date = none →
      ∀ g ∈ split_invoices rows m, ∀ r ∈ g,
        ∃ v, rowGet r invCol = some v ∧ py_strip v ≠ "") ∧
    (∀ dateCol, lookupCol m .invoice_date = some dateCol →
      ∀ g ∈ split_invoices rows m, ∀ r ∈ g, rowGet r invCol ≠ none) := by
  constructor
  · intro hdate g hg r hr
    simp only [split_invoices, hinv] at hg
    rcases List.mem_filterMap.1 hg with ⟨k, hk, hfk⟩
    split at hfk
    · exact absurd hfk (by simp)
    · next hkne =>
      cases hfk
      have hkey : group_key m invCol r = some k :=
        of_decide_eq_true (List.mem_filter.1 hr).2
      simp only [group_key, hdate] at hkey
      exact ⟨k, hkey, hkne⟩
  · intro dateCol hdate g hg r hr heq
    simp only [split_invoices, hinv] at hg
    rcases List.mem_filterMap.1 hg with ⟨k, hk, hfk⟩
    split at hfk
    · exact absurd hfk (by simp)
    · cases hfk
      have hkey : group_key m invCol r = some k :=
        of_decide_eq_true (List.mem_filter.1 hr).2
      simp only [group_key, hdate, heq] at hkey
      exact Option.noConfusion hkey

/-- Mapping with only an invoice-number column (plain-key grouping). -/
def exM9p : Mapping := [(.invoice_number, "Inv", 100)]

/-- A row with a non-blank invoice number. -/
def exR9 : Row := [("Inv", some "A")]

/-- Witness for C9 in the plain-key path. -/
theorem C9_group_exclusion_witness :
    ∃ v, rowGet exR9 "Inv" = some v ∧ py_strip v ≠ "" :=
  (C9_group_exclusion exM9p [exR9] "Inv" rfl).1 rfl [exR9] (by decide)
    exR9 (by decide)

/-- Mapping with invoice-number and invoice-date columns (composite
grouping). -/
def exM9 : Mapping :=
  [(.invoice_number, "Inv", 100), (.invoice_date, "Date", 100)]

/-- A row whose invoice-number cell is blank but whose date cell is set. -/
def exRBlank : Row := [("Inv", some ""), ("Date", some "2024-01-01")]

/-- A row with a proper invoice number. -/
def exRGood : Row := [("Inv", some "A"), ("Date", some "2024-01-01")]

/-- C9 counterexample: in the composite path the blank invoice-number row
gets key `_2024-01-01`, which is not blank, so the row is returned in a
group — the claim says it is excluded from every group. -/
theorem C9_counterexample :
    rowGet exRBlank "Inv" = some "" ∧
      [exRBlank] ∈ split_invoices [exRBlank, exRGood] exM9 :=
  ⟨rfl, by decide⟩
